import Mathlib

/-!
Verification development for the DeadBot raid-payout Discord bot.

The repository contains two revisions of the bot:
* `raid_manager_bot.py` — the earlier, flat-file revision ("v1" below);
* `bot.py` + `utils.py` — the later, database revision ("db" below).

Python strings are modelled as `List Char` (`Str`), Python floats as exact
rationals (`ℚ`), Python ints as `ℤ`/`Nat`.  All definitions are translated
from the Python source; the source file, function and line are recorded in
the doc comments.
-/

namespace DeadBot

/-- Python strings are modelled as lists of characters. -/
abbrev Str := List Char

/-- Converts a Lean string literal to the `Str` model. -/
def str (s : String) : Str := s.data

/-- Model of Python `s.split(sep)` for a one-character separator `sep`
(also used for the comma splitting performed by `csv.reader` on
quote-free input). -/
def splitOnChar (sep : Char) (s : Str) : List Str :=
  match s with
  | [] => [[]]
  | c :: rest =>
    let r := splitOnChar sep rest
    if c == sep then [] :: r
    else match r with
      | [] => [[c]]
      | h :: t => (c :: h) :: t

/-- Model of Python `s.strip()` (leading and trailing whitespace removed). -/
def trimL (s : Str) : Str :=
  ((s.dropWhile Char.isWhitespace).reverse.dropWhile Char.isWhitespace).reverse

/-- Model of Python `s.lower()` (ASCII case folding). -/
def lowerL (s : Str) : Str := s.map Char.toLower

/-- Model of Python `s.endswith(t)`. -/
def endsWithL (s t : Str) : Bool := s.drop (s.length - t.length) == t

/-- Decimal rendering of an integer, as used by Python f-string interpolation
of an `int`. -/
def intToStr (n : Int) : Str := (Int.repr n).data

/-- Model of Python `s.isdigit()` restricted to ASCII digits: true iff the
string is non-empty and consists of digits only. -/
def pyIsDigit (s : Str) : Bool := !s.isEmpty && s.all Char.isDigit

/-- Numeric value of a string of decimal digits. -/
def decVal (s : Str) : Nat := s.foldl (fun n c => n * 10 + (c.toNat - 48)) 0

/-- Tests whether `t` begins with the segment `pat`. -/
def beginsWith : Str → Str → Bool
  | _, [] => true
  | [], _ :: _ => false
  | c :: s, p :: ps => c == p && beginsWith s ps

/-- Model of Python `pat in s` (substring containment). -/
def containsL : Str → Str → Bool
  | [], pat => pat.isEmpty
  | c :: rest, pat => beginsWith (c :: rest) pat || containsL rest pat

/-- Splits a text into lines, treating `\r\n`, `\r` and `\n` as line ends.
This models both `csv.reader`'s record splitting and the explicit
`replace('\r\n','\n').replace('\r','\n')` + `split('\n')` in
`raid_manager_bot.parse_roster_data`. -/
def splitLines : Str → List Str
  | [] => [[]]
  | '\r' :: '\n' :: rest => [] :: splitLines rest
  | '\r' :: rest => [] :: splitLines rest
  | '\n' :: rest => [] :: splitLines rest
  | c :: rest =>
    match splitLines rest with
    | [] => [[c]]
    | h :: t => (c :: h) :: t

/-- Gregorian leap-year test, as used by `datetime.date`. -/
def isLeapYear (y : Nat) : Bool := y % 4 == 0 && (y % 100 != 0 || y % 400 == 0)

/-- Number of days of month `m` in year `y`, as validated by `datetime.date`. -/
def daysInMonth (y m : Nat) : Nat :=
  if m = 2 then (if isLeapYear y then 29 else 28)
  else if m ∈ [4, 6, 9, 11] then 30 else 31

/-- Model of the `%d` / `%m` field of `datetime.strptime`: one or two decimal
digits whose value lies in `[1, hi]` (CPython's `_strptime` regexes
`3[01]|[12]\d|0[1-9]|[1-9]` and `1[0-2]|0[1-9]|[1-9]`). -/
def parseBoundedField (hi : Nat) (s : Str) : Option Nat :=
  if s.all Char.isDigit ∧ 1 ≤ s.length ∧ s.length ≤ 2 ∧ 1 ≤ decVal s ∧ decVal s ≤ hi
  then some (decVal s) else none

/-- Model of the `%Y` field of `datetime.strptime`: exactly four decimal
digits (CPython regex `\d\d\d\d`). -/
def parseYearField (s : Str) : Option Nat :=
  if s.all Char.isDigit ∧ s.length = 4 then some (decVal s) else none

/-- Model of `datetime.strptime(s, '%d-%m-%Y')` followed by `datetime.date`
construction: returns `(day, month, year)` on success, `none` on
`ValueError`.  Requires `year ≥ 1` (`datetime.MINYEAR`) and a valid
day-of-month. -/
def parseDMY (s : Str) : Option (Nat × Nat × Nat) :=
  match splitOnChar '-' s with
  | [ds, ms, ys] =>
    match parseBoundedField 31 ds, parseBoundedField 12 ms, parseYearField ys with
    | some d, some m, some y =>
      if 1 ≤ y ∧ d ≤ daysInMonth y m then some (d, m, y) else none
    | _, _, _ => none
  | _ => none

/-- Model of `datetime.strptime(s, '%Y-%m-%d')` validity, i.e.
`utils.is_valid_date` / `raid_manager_bot.is_valid_date` (utils.py lines
21-26). -/
def parseYMD (s : Str) : Option (Nat × Nat × Nat) :=
  match splitOnChar '-' s with
  | [ys, ms, ds] =>
    match parseYearField ys, parseBoundedField 12 ms, parseBoundedField 31 ds with
    | some y, some m, some d =>
      if 1 ≤ y ∧ d ≤ daysInMonth y m then some (y, m, d) else none
    | _, _, _ => none
  | _ => none

/-- `is_valid_date` from utils.py lines 21-26: the string parses under
`%Y-%m-%d`. -/
def is_valid_date (s : Str) : Bool := (parseYMD s).isSome

/-- Two-digit zero padding, as in `strftime`'s `%m` / `%d`. -/
def pad2 (n : Nat) : Str := if n < 10 then '0' :: (Nat.repr n).data else (Nat.repr n).data

/-- Model of `dt.strftime('%Y-%m-%d')` for a date `(y, m, d)`. -/
def formatYMD (y m d : Nat) : Str :=
  (Nat.repr y).data ++ str "-" ++ pad2 m ++ str "-" ++ pad2 d

/-- The exclusion set `EXCLUDED_ROLES` of `utils.parse_roster_data`
(utils.py line 197). -/
def EXCLUDED_ROLES : List Str := [str "absence", str "tentative", str "bench"]

/-- The event-summary header test of utils.py line 211:
`len(row) > 1 and row[0].strip().lower() == 'name' and
row[1].strip().lower() == 'date'`. -/
def isEventHeaderRow (row : List Str) : Bool :=
  match row with
  | c0 :: c1 :: _ => lowerL (trimL c0) == str "name" && lowerL (trimL c1) == str "date"
  | _ => false

/-- The player-list header test of utils.py line 226:
`len(row) > 1 and row[0].strip().lower() == 'role' and
row[1].strip().lower() == 'spec'`. -/
def isPlayerHeaderRow (row : List Str) : Bool :=
  match row with
  | c0 :: c1 :: _ => lowerL (trimL c0) == str "role" && lowerL (trimL c1) == str "spec"
  | _ => false

/-- The event-date extraction of utils.py lines 213-221 applied to the row
consumed by `next(reader)`: column 1 is read, stripped, parsed as
`%d-%m-%Y` and re-emitted via `strftime('%Y-%m-%d')`; on `IndexError`
or `ValueError` the previous value is kept. -/
def extractEventDate (row : List Str) (rd : Option Str) : Option Str :=
  match row[1]? with
  | none => rd
  | some ds =>
    match parseDMY (trimL ds) with
    | none => rd
    | some (dd, mm, yy) => some (formatYMD yy mm dd)

/-- The record rows produced by `csv.reader(StringIO(roster_string))` on
quote-free input: each line split on commas, a blank line yielding the
empty row `[]`. -/
def csvRows (s : Str) : List (List Str) :=
  (splitLines s).map (fun l => if l.isEmpty then [] else splitOnChar ',' l)

/-- The row loop of `utils.parse_roster_data` (utils.py lines 204-246),
with state `(parsing_players, run_date, active, benched)`.  The event-summary
branch consumes the following row via `next(reader)`; `StopIteration` there
ends the loop. -/
def parseLoop : List (List Str) → Bool → Option Str → List (Str × Str) → List Str →
    Option Str × List (Str × Str) × List Str
  | [], _, rd, act, ben => (rd, act, ben)
  | row :: rest, pp, rd, act, ben =>
    if row.isEmpty then parseLoop rest pp rd act ben
    else if !pp && isEventHeaderRow row then
      match rest with
      | [] => (rd, act, ben)
      | d :: rest2 => parseLoop rest2 pp (extractEventDate d rd) act ben
    else if isPlayerHeaderRow row then parseLoop rest true rd act ben
    else if pp then
      match row with
      | c0 :: _c1 :: c2 :: c3 :: _ =>
        let role := lowerL (trimL c0)
        let name := trimL c2
        let id := trimL c3
        if name = [] ∨ id = [] then parseLoop rest pp rd act ben
        else if role ∈ EXCLUDED_ROLES then parseLoop rest pp rd act (ben ++ [name])
        else if pyIsDigit id then parseLoop rest pp rd (act ++ [(name, id)]) ben
        else parseLoop rest pp rd act ben
      | _ => parseLoop rest pp rd act ben
    else parseLoop rest pp rd act ben

/-- `utils.parse_roster_data` (utils.py lines 181-247): returns
`(run_date, active_boosters_with_ids, benched_players_names)`. -/
def parse_roster_data (s : Str) : Option Str × List (Str × Str) × List Str :=
  parseLoop (csvRows s) false none [] []

/-- The per-row classification of `raid_manager_bot.parse_roster_data`
(raid_manager_bot.py lines 82-87), applied to the already-stripped parts of
one line, extending the accumulators `(active, benched)`. -/
def fileClassifyParts (parts : List Str) (act : List (Str × Str)) (ben : List Str) :
    List (Str × Str) × List Str :=
  match parts with
  | role :: _spec :: name :: id :: _ =>
    if lowerL role ∉ [str "absence", str "bench"] ∧ name ≠ [] ∧ pyIsDigit id
    then (act ++ [(name, id)], ben)
    else if lowerL role = str "bench" ∧ name ≠ [] then (act, ben ++ [name])
    else (act, ben)
  | _ => (act, ben)

/-- The line loop of `raid_manager_bot.parse_roster_data` over the lines after
the header (raid_manager_bot.py lines 78-87): blank lines skipped, each line
split on commas with every part stripped, rows with at least four parts
classified. -/
def fileProcessLines : List Str → List (Str × Str) → List Str →
    List (Str × Str) × List Str
  | [], act, ben => (act, ben)
  | line :: rest, act, ben =>
    if trimL line = [] then fileProcessLines rest act ben
    else
      let parts := (splitOnChar ',' (trimL line)).map trimL
      let r := fileClassifyParts parts act ben
      fileProcessLines rest r.1 r.2

/-- The header scan of `raid_manager_bot.parse_roster_data`
(raid_manager_bot.py lines 74-77): the lines following the first line that,
stripped and lowered, equals `role,spec,name,id,timestamp,status`; `none`
when no such line exists. -/
def dropThroughHeader : List Str → Option (List Str)
  | [] => none
  | l :: rest =>
    if lowerL (trimL l) = str "role,spec,name,id,timestamp,status" then some rest
    else dropThroughHeader rest

/-- `raid_manager_bot.parse_roster_data` (raid_manager_bot.py lines 71-88):
returns `(active_boosters_with_ids, benched_players_names)`; both empty when
the header is missing. -/
def parse_roster_data_v1 (s : Str) : List (Str × Str) × List Str :=
  match dropThroughHeader (splitLines (trimL s)) with
  | none => ([], [])
  | some rest => fileProcessLines rest [] []

/-- `config.RAID_LEADER_CUT_PERCENTAGE` (config.py line 13), the float 0.015
modelled as an exact rational. -/
def RAID_LEADER_CUT_PERCENTAGE : ℚ := 15 / 1000

/-- `config.GUILD_CUT_PERCENTAGE` (config.py line 12), the float 0.035
modelled as an exact rational. -/
def GUILD_CUT_PERCENTAGE : ℚ := 35 / 1000

/-- Python `int(x)` on a float: truncation toward zero. -/
def pyInt (q : ℚ) : ℤ := if 0 ≤ q then ⌊q⌋ else ⌈q⌉

/-- Round-half-to-even on a rational, the rounding used by Python `round`. -/
def roundHalfEven (q : ℚ) : ℤ :=
  if q - ⌊q⌋ < 1/2 then ⌊q⌋
  else if q - ⌊q⌋ > 1/2 then ⌊q⌋ + 1
  else if ⌊q⌋ % 2 = 0 then ⌊q⌋ else ⌊q⌋ + 1

/-- Python `round(x, 2)` modelled on exact rationals. -/
def pyRound2 (q : ℚ) : ℚ := (roundHalfEven (q * 100) : ℚ) / 100

/-- The payout quantities computed by `cut_command` (bot.py lines 356-373 and
raid_manager_bot.py lines 285-302; the two revisions perform the identical
computation). -/
structure PayoutResult where
  raid_leader_share_amount : ℚ
  guild_share_amount : ℚ
  remaining_gold_for_boosters : ℚ
  gold_per_booster_precise : ℚ
  gold_per_booster_for_payment : ℤ
  gold_per_booster_logged : ℚ

/-- The calculation block of `cut_command` (bot.py lines 356-372): the raid
leader share is taken off the total first (only when the configured
percentage is positive), the guild share off the remainder, the rest divided
by the number of boosters; the mail amount is `int(...)` of the precise
share and the logged per-booster value is `round(..., 2)`. -/
def computePayout (total_gold : ℤ) (rl_pct guild_pct : ℚ) (num_boosters : ℕ) : PayoutResult :=
  let rlShare : ℚ := if rl_pct > 0 then (total_gold : ℚ) * rl_pct else 0
  let goldAfterRl : ℚ := (total_gold : ℚ) - rlShare
  let guildShare : ℚ := goldAfterRl * guild_pct
  let remaining : ℚ := goldAfterRl - guildShare
  let precise : ℚ := if num_boosters = 0 then 0 else remaining / (num_boosters : ℚ)
  { raid_leader_share_amount := rlShare
    guild_share_amount := guildShare
    remaining_gold_for_boosters := remaining
    gold_per_booster_precise := precise
    gold_per_booster_for_payment := pyInt precise
    gold_per_booster_logged := pyRound2 precise }

/-- Delivery plan produced by the output formatter: either a single inline
text message or a file attachment with an inline introductory message. -/
inductive Delivery where
  | inlineMsg : Str → Delivery
  | fileAttach : Str → Str → Str → Delivery
deriving DecidableEq

/-- The message-combination logic shared by both revisions of
`send_long_message_or_file` (utils.py lines 254-260, raid_manager_bot.py
lines 113-120): when secondary content is present, the primary is padded so
that it ends with a blank line, then the secondary is appended. -/
def combineMessages (primary secondary : Str) : Str :=
  if secondary ≠ [] then
    (if primary ≠ [] ∧ ¬(endsWithL primary (str "\n\n") = true) then
      (if ¬(endsWithL primary (str "\n") = true) then primary ++ str "\n" else primary)
        ++ str "\n"
     else primary) ++ secondary
  else primary

/-- The introductory message chosen for the file-attachment case, shared by
both revisions (utils.py lines 276-280, raid_manager_bot.py lines 130-135). -/
def introText (primary secondary filename : Str) : Str :=
  if primary ≠ [] ∧ primary.length < 300 then
    primary ++ str "\n... (additional details in attached file `" ++ filename ++ str "`)"
  else if primary = [] ∧ secondary ≠ [] then
    str "Details attached as `" ++ filename ++ str "`."
  else str "Output too long, attached as `" ++ filename ++ str "`."

/-- `utils.send_long_message_or_file` (utils.py lines 249-286), reduced to
its delivery decision: combined content longer than 1950 characters goes to
a file with an introductory message; otherwise whitespace-only content is
replaced by the placeholder and anything else is sent inline. -/
def send_long_message_or_file (primary secondary filename : Str) : Delivery :=
  let full := combineMessages primary secondary
  if full.length > 1950 then
    .fileAttach (introText primary secondary filename) filename full
  else if trimL full = [] then .inlineMsg (str "No information to display.")
  else .inlineMsg full

/-- `raid_manager_bot.send_long_message_or_file` (raid_manager_bot.py lines
107-142): identical logic, but with the placeholder text
`No payment information or warnings to display.`. -/
def send_long_message_or_file_v1 (primary secondary filename : Str) : Delivery :=
  let full := combineMessages primary secondary
  if full.length > 1950 then
    .fileAttach (introText primary secondary filename) filename full
  else if trimL full = [] then
    .inlineMsg (str "No payment information or warnings to display.")
  else .inlineMsg full

/-- A payment-character registration: `{"alt": ..., "faction": ...}` as
stored in `alt_mappings`. -/
structure AltInfo where
  alt : Str
  faction : Str
deriving DecidableEq

/-- The realm-suffix logic of `cut_command` (bot.py lines 492-495,
raid_manager_bot.py lines 387-389): append `-Area52` unless the name with
spaces removed already contains it. -/
def addRealmSuffix (alt : Str) : Str :=
  if containsL (alt.filter (fun c => c ≠ ' ')) (str "-Area52") then alt
  else alt ++ str "-Area52"

/-- The warning text for an unregistered or incompletely registered booster
(bot.py line 461, raid_manager_bot.py line 398). -/
def noRegWarning (discordId charName : Str) : Str :=
  str "No Alt/Faction registered for ID `" ++ discordId ++ str "` (" ++ charName ++ str ")."

/-- The admin warning text for a registered booster with an unrecognized
faction (bot.py line 467). -/
def unknownFactionWarning (discordId charName : Str) (info : AltInfo) : Str :=
  str "Unknown faction for ID `" ++ discordId ++ str "` (" ++ charName ++ str "). Alt: "
    ++ info.alt ++ str ", Faction: \x27" ++ info.faction ++ str "\x27"

/-- The payment-string generation loop of the database revision
(bot.py lines 485-498): boosters registered with a non-empty alt and a
faction whose lowercase form is `horde` or `alliance` contribute the string
`<alt>[-Area52]:<amount>:<subject>:<body>` to the corresponding bucket; all
others are skipped (their warnings were collected separately). -/
def generatePayments (m : Str → Option AltInfo) (amount : ℤ) (subject body : Str) :
    List (Str × Str) → List Str × List Str
  | [] => ([], [])
  | (_charName, discordId) :: rest =>
    let prev := generatePayments m amount subject body rest
    match m discordId with
    | some info =>
      if info.alt ≠ [] ∧ info.faction ≠ [] then
        if lowerL info.faction ∈ [str "horde", str "alliance"] then
          let s := addRealmSuffix info.alt ++ str ":" ++ intToStr amount ++ str ":"
            ++ subject ++ str ":" ++ body
          if lowerL info.faction = str "horde" then (s :: prev.1, prev.2)
          else if lowerL info.faction = str "alliance" then (prev.1, s :: prev.2)
          else prev
        else prev
      else prev
    | none => prev

/-- The alt/faction warning loop of the database revision (bot.py lines
455-470), restricted to the admin warning list: one warning per active
booster that is unregistered, registered with an empty alt or faction, or
registered with a faction outside `{horde, alliance}`. -/
def altWarnings (m : Str → Option AltInfo) : List (Str × Str) → List Str
  | [] => []
  | (charName, discordId) :: rest =>
    let prev := altWarnings m rest
    match m discordId with
    | none => noRegWarning discordId charName :: prev
    | some info =>
      if info.alt = [] ∨ info.faction = [] then noRegWarning discordId charName :: prev
      else if lowerL info.faction ∉ [str "horde", str "alliance"] then
        unknownFactionWarning discordId charName info :: prev
      else prev

/-- The warning text for a registered booster with an unrecognized faction in
the file revision (raid_manager_bot.py line 396). -/
def unknownFactionWarningV1 (discordId charName : Str) (info : AltInfo) : Str :=
  str "Unknown faction for Discord ID `" ++ discordId ++ str "` (" ++ charName
    ++ str "). Alt: " ++ info.alt ++ str ", Faction: " ++ info.faction

/-- The single payment-string/warning loop of the file revision
(raid_manager_bot.py lines 383-398): returns
`(horde_salestools_parts, alliance_salestools_parts, missing_alt_warnings_list)`.
Note the instruction string places the subject BEFORE the amount:
`<alt>[-Area52]:<subject>:<amount>:<body>`. -/
def generatePaymentsV1 (m : Str → Option AltInfo) (amount : ℤ) (subject body : Str) :
    List (Str × Str) → List Str × List Str × List Str
  | [] => ([], [], [])
  | (charName, discordId) :: rest =>
    let prev := generatePaymentsV1 m amount subject body rest
    match m discordId with
    | some info =>
      if info.alt ≠ [] ∧ info.faction ≠ [] then
        let s := addRealmSuffix info.alt ++ str ":" ++ subject ++ str ":"
          ++ intToStr amount ++ str ":" ++ body
        if lowerL info.faction = str "horde" then (s :: prev.1, prev.2.1, prev.2.2)
        else if lowerL info.faction = str "alliance" then (prev.1, s :: prev.2.1, prev.2.2)
        else (prev.1, prev.2.1, unknownFactionWarningV1 discordId charName info :: prev.2.2)
      else (prev.1, prev.2.1, noRegWarning discordId charName :: prev.2.2)
    | none => (prev.1, prev.2.1, noRegWarning discordId charName :: prev.2.2)

/-- The roster file-extension validation of `cut_command` (bot.py line 330,
raid_manager_bot.py line 260): `filename.lower().endswith(('.txt', '.csv'))`. -/
def hasRosterExtension (filename : Str) : Bool :=
  endsWithL (lowerL filename) (str ".txt") || endsWithL (lowerL filename) (str ".csv")

/-- The mutable `CurrentRunData` session object shared across invocations
(bot.py lines 19-31, raid_manager_bot.py lines 15-27). -/
structure RunSession where
  run_date : Str
  wcl_link : Str
  total_gold : ℤ
  roster_raw : Str
  active_boosters : List (Str × Str)
  benched_players : List Str
  guild_share : ℚ
  raid_leader_share_amount : ℚ
  gold_per_booster : ℚ
  data_loaded : Bool
deriving DecidableEq

/-- `CurrentRunData.reset` / `__init__`: all fields cleared. -/
def resetSession : RunSession :=
  { run_date := [], wcl_link := [], total_gold := 0, roster_raw := []
    active_boosters := [], benched_players := [], guild_share := 0
    raid_leader_share_amount := 0, gold_per_booster := 0, data_loaded := false }

/-- The session state after `current_run_session.reset()` and the four field
assignments preceding the parse step (bot.py lines 342-346,
raid_manager_bot.py lines 271-275). -/
def sessionAfterLoad (run_date wcl_link : Str) (total_gold : ℤ) (roster : Str) : RunSession :=
  { resetSession with
    run_date := run_date, wcl_link := wcl_link, total_gold := total_gold,
    roster_raw := roster }

/-- One persisted run-log record, with the data fields of the `log_entry`
dict built by `cut_command` (raid_manager_bot.py lines 306-319, bot.py lines
377-394).  The `processed_by` and `timestamp` fields, which come from the
chat interaction context, are not modelled. -/
structure RunLogEntry where
  run_date : Str
  wcl_link : Str
  total_gold : ℤ
  raid_leader_cut_percentage : ℚ
  raid_leader_share_gold : ℚ
  guild_cut_percentage : ℚ
  guild_share_gold : ℚ
  gold_per_booster : ℚ
  num_boosters : ℕ
  active_boosters : List (Str × Str)
  benched_players : List Str
deriving DecidableEq

/-- The `log_entry` dict built from a payout computation. -/
def mkRunLogEntry (run_date wcl_link : Str) (total_gold : ℤ) (rl_pct guild_pct : ℚ)
    (res : PayoutResult) (act : List (Str × Str)) (ben : List Str) : RunLogEntry :=
  { run_date := run_date, wcl_link := wcl_link, total_gold := total_gold
    raid_leader_cut_percentage := if rl_pct > 0 then rl_pct else 0
    raid_leader_share_gold := pyRound2 res.raid_leader_share_amount
    guild_cut_percentage := guild_pct
    guild_share_gold := pyRound2 res.guild_share_amount
    gold_per_booster := res.gold_per_booster_logged
    num_boosters := act.length
    active_boosters := act, benched_players := ben }

/-- A dynamically-typed component of the tuple returned by
`utils.parse_roster_data`: the run date, the active list, or the benched
list. -/
inductive RosterVal where
  | vDate : Option Str → RosterVal
  | vActive : List (Str × Str) → RosterVal
  | vBench : List Str → RosterVal
deriving DecidableEq

/-- The value of `utils.parse_roster_data(roster)` seen as the Python tuple
it is at runtime: a sequence of three components. -/
def parseRosterDataTuple (s : Str) : List RosterVal :=
  [.vDate (parse_roster_data s).1,
   .vActive (parse_roster_data s).2.1,
   .vBench (parse_roster_data s).2.2]

/-- Python tuple unpacking into exactly two targets (`a, b = t`): succeeds
only on a two-element sequence, raising `ValueError` otherwise. -/
def unpack2 {α : Type} (l : List α) : Except Str (α × α) :=
  match l with
  | [a, b] => .ok (a, b)
  | l' =>
    if l'.length > 2 then .error (str "too many values to unpack (expected 2)")
    else .error (str "not enough values to unpack")

/-- Outcome of one `cut_command` invocation: an explicit ephemeral reply, an
uncaught Python exception (surfaced by the `cut_error` handler as a generic
message), or a completed run. -/
inductive CutOutcome where
  | reply : Str → CutOutcome
  | pyError : Str → CutOutcome
  | completed : List (Str × Str) → List Str → CutOutcome
deriving DecidableEq

/-- The validation-and-parse phase of the database revision's `cut_command`
(bot.py lines 323-353): the three input validations each abort with a
specific reply; then the session is reset and loaded, and the 3-tuple
returned by `utils.parse_roster_data` is unpacked into two targets (bot.py
line 348), which raises `ValueError`.  The `.ok` branch — where the source
would continue with the zero-active check, logging and instruction
generation — is provably unreachable, because the parse tuple always has
three components; it is modelled as an explicit marker.  The availability
check of the external database pool (bot.py lines 318-321) belongs to the
persistence collaborator and is not modelled (the pool is assumed
available). -/
def cut_command (run_date wcl_link : Str) (total_gold : ℤ) (filename roster : Str)
    (session : RunSession) (logs : List RunLogEntry) :
    CutOutcome × RunSession × List RunLogEntry :=
  if ¬(is_valid_date run_date = true) then
    (.reply (str "Invalid date format. Please use `YYYY-MM-DD`."), session, logs)
  else if total_gold ≤ 0 then
    (.reply (str "Total gold must be a positive number."), session, logs)
  else if ¬(hasRosterExtension filename = true) then
    (.reply (str "Roster file must be a `.txt` or `.csv` file."), session, logs)
  else
    let session1 := sessionAfterLoad run_date wcl_link total_gold roster
    match unpack2 (parseRosterDataTuple roster) with
    | .error e => (.pyError e, session1, logs)
    | .ok _ => (.pyError (str "unreachable"), session1, logs)

/-- The generic reply produced by the `cut_command.error` handler for an
uncaught exception (bot.py line 688, raid_manager_bot.py line 469). -/
def cutErrorReply : Str :=
  str "An unexpected error occurred while processing the cut. Please check the bot logs."

/-- The validation, parse, calculation and logging phase of the file
revision's `cut_command` (raid_manager_bot.py lines 253-320): the three
input validations and the zero-active check each abort with a specific
reply; otherwise the payout is computed, the session is filled in, and a
run-log entry is appended. -/
def cut_command_v1 (run_date wcl_link : Str) (total_gold : ℤ) (filename roster : Str)
    (session : RunSession) (logs : List RunLogEntry) :
    CutOutcome × RunSession × List RunLogEntry :=
  if ¬(is_valid_date run_date = true) then
    (.reply (str "Invalid date format. Please use `YYYY-MM-DD`."), session, logs)
  else if total_gold ≤ 0 then
    (.reply (str "Total gold must be a positive number."), session, logs)
  else if ¬(hasRosterExtension filename = true) then
    (.reply (str "Roster file must be a `.txt` or `.csv` file."), session, logs)
  else
    let session1 := sessionAfterLoad run_date wcl_link total_gold roster
    let parsed := parse_roster_data_v1 roster
    if parsed.1 = [] then
      (.reply (str "No active boosters found in the roster. Please check the file format and content."),
       session1, logs)
    else
      let res := computePayout total_gold RAID_LEADER_CUT_PERCENTAGE GUILD_CUT_PERCENTAGE
        parsed.1.length
      let session2 :=
        { session1 with
          active_boosters := parsed.1, benched_players := parsed.2,
          raid_leader_share_amount := res.raid_leader_share_amount,
          guild_share := res.guild_share_amount,
          gold_per_booster := res.gold_per_booster_precise,
          data_loaded := true }
      (.completed parsed.1 parsed.2, session2,
       logs ++ [mkRunLogEntry run_date wcl_link total_gold RAID_LEADER_CUT_PERCENTAGE
         GUILD_CUT_PERCENTAGE res parsed.1 parsed.2])

/-- The database-revision payment instruction string for a registered alt:
`<character>[-Area52]:<amount>:<subject>:<body>` (bot.py line 496). -/
def paymentStringDB (alt : Str) (amount : ℤ) (subject body : Str) : Str :=
  addRealmSuffix alt ++ str ":" ++ intToStr amount ++ str ":" ++ subject ++ str ":" ++ body

/-- The file-revision payment instruction string for a registered alt:
`<character>[-Area52]:<subject>:<amount>:<body>` (raid_manager_bot.py
line 390). -/
def paymentStringV1 (alt : Str) (amount : ℤ) (subject body : Str) : Str :=
  addRealmSuffix alt ++ str ":" ++ subject ++ str ":" ++ intToStr amount ++ str ":" ++ body

/-- Per-booster horde-bucket contribution of the database revision. -/
def hordeOpt (m : Str → Option AltInfo) (amount : ℤ) (subject body : Str)
    (p : Str × Str) : Option Str :=
  match m p.2 with
  | some info =>
    if info.alt ≠ [] ∧ info.faction ≠ [] ∧ lowerL info.faction = str "horde"
    then some (paymentStringDB info.alt amount subject body) else none
  | none => none

/-- Per-booster alliance-bucket contribution of the database revision. -/
def allianceOpt (m : Str → Option AltInfo) (amount : ℤ) (subject body : Str)
    (p : Str × Str) : Option Str :=
  match m p.2 with
  | some info =>
    if info.alt ≠ [] ∧ info.faction ≠ [] ∧ lowerL info.faction = str "alliance"
    then some (paymentStringDB info.alt amount subject body) else none
  | none => none

/-- Per-booster warning contribution of the database revision. -/
def warnOpt (m : Str → Option AltInfo) (p : Str × Str) : Option Str :=
  match m p.2 with
  | none => some (noRegWarning p.2 p.1)
  | some info =>
    if info.alt = [] ∨ info.faction = [] then some (noRegWarning p.2 p.1)
    else if lowerL info.faction ∉ [str "horde", str "alliance"] then
      some (unknownFactionWarning p.2 p.1 info)
    else none

/-- Per-booster horde-bucket contribution of the file revision. -/
def hordeOptV1 (m : Str → Option AltInfo) (amount : ℤ) (subject body : Str)
    (p : Str × Str) : Option Str :=
  match m p.2 with
  | some info =>
    if info.alt ≠ [] ∧ info.faction ≠ [] ∧ lowerL info.faction = str "horde"
    then some (paymentStringV1 info.alt amount subject body) else none
  | none => none

/-- Per-booster alliance-bucket contribution of the file revision. -/
def allianceOptV1 (m : Str → Option AltInfo) (amount : ℤ) (subject body : Str)
    (p : Str × Str) : Option Str :=
  match m p.2 with
  | some info =>
    if info.alt ≠ [] ∧ info.faction ≠ [] ∧ lowerL info.faction = str "alliance"
    then some (paymentStringV1 info.alt amount subject body) else none
  | none => none

/-- Per-booster warning contribution of the file revision. -/
def warnOptV1 (m : Str → Option AltInfo) (p : Str × Str) : Option Str :=
  match m p.2 with
  | none => some (noRegWarning p.2 p.1)
  | some info =>
    if info.alt = [] ∨ info.faction = [] then some (noRegWarning p.2 p.1)
    else if lowerL info.faction ≠ str "horde" ∧ lowerL info.faction ≠ str "alliance" then
      some (unknownFactionWarningV1 p.2 p.1 info)
    else none

theorem hordeNeAlliance : str "horde" ≠ str "alliance" := by decide

theorem allianceNeHorde : str "alliance" ≠ str "horde" := by decide

theorem generatePayments_eq_filterMap (m : Str → Option AltInfo) (amount : ℤ)
    (subject body : Str) (active : List (Str × Str)) :
    generatePayments m amount subject body active
      = (active.filterMap (hordeOpt m amount subject body),
         active.filterMap (allianceOpt m amount subject body)) := by
  induction active with
  | nil => rfl
  | cons p rest ih =>
    obtain ⟨cn, id⟩ := p
    simp only [generatePayments, ih, List.filterMap_cons]
    cases hm : m id with
    | none => simp [hordeOpt, allianceOpt, hm]
    | some info =>
      by_cases hA : info.alt = []
      · simp [hordeOpt, allianceOpt, hm, hA]
      · by_cases hF : info.faction = []
        · simp [hordeOpt, allianceOpt, hm, hF]
        · by_cases h2 : lowerL info.faction = str "horde"
          · simp [hordeOpt, allianceOpt, hm, hA, hF, h2, hordeNeAlliance, paymentStringDB]
          · by_cases h3 : lowerL info.faction = str "alliance"
            · simp [hordeOpt, allianceOpt, hm, hA, hF, h2, h3, allianceNeHorde,
                paymentStringDB]
            · simp [hordeOpt, allianceOpt, hm, hA, hF, h2, h3]

theorem altWarnings_eq_filterMap (m : Str → Option AltInfo)
    (active : List (Str × Str)) :
    altWarnings m active = active.filterMap (warnOpt m) := by
  induction active with
  | nil => rfl
  | cons p rest ih =>
    obtain ⟨cn, id⟩ := p
    simp only [altWarnings, ih, List.filterMap_cons]
    cases hm : m id with
    | none => simp [warnOpt, hm]
    | some info =>
      by_cases hA : info.alt = []
      · simp [warnOpt, hm, hA]
      · by_cases hF : info.faction = []
        · simp [warnOpt, hm, hA, hF]
        · by_cases h2 : lowerL info.faction = str "horde"
          · simp [warnOpt, hm, hA, hF, h2, hordeNeAlliance]
          · by_cases h3 : lowerL info.faction = str "alliance"
            · simp [warnOpt, hm, hA, hF, h2, h3]
            · simp [warnOpt, hm, hA, hF, h2, h3]

theorem generatePaymentsV1_eq_filterMap (m : Str → Option AltInfo) (amount : ℤ)
    (subject body : Str) (active : List (Str × Str)) :
    generatePaymentsV1 m amount subject body active
      = (active.filterMap (hordeOptV1 m amount subject body),
         active.filterMap (allianceOptV1 m amount subject body),
         active.filterMap (warnOptV1 m)) := by
  induction active with
  | nil => rfl
  | cons p rest ih =>
    obtain ⟨cn, id⟩ := p
    simp only [generatePaymentsV1, ih, List.filterMap_cons]
    cases hm : m id with
    | none => simp [hordeOptV1, allianceOptV1, warnOptV1, hm]
    | some info =>
      by_cases hA : info.alt = []
      · simp [hordeOptV1, allianceOptV1, warnOptV1, hm, hA]
      · by_cases hF : info.faction = []
        · simp [hordeOptV1, allianceOptV1, warnOptV1, hm, hA, hF]
        · by_cases h2 : lowerL info.faction = str "horde"
          · simp [hordeOptV1, allianceOptV1, warnOptV1, hm, hA, hF, h2,
              hordeNeAlliance, paymentStringV1]
          · by_cases h3 : lowerL info.faction = str "alliance"
            · simp [hordeOptV1, allianceOptV1, warnOptV1, hm, hA, hF, h2, h3,
                allianceNeHorde, paymentStringV1]
            · simp [hordeOptV1, allianceOptV1, warnOptV1, hm, hA, hF, h2, h3]

theorem partition_count (m : Str → Option AltInfo) (amount : ℤ) (subject body : Str)
    (p : Str × Str) :
    (hordeOpt m amount subject body p).isSome.toNat
      + (allianceOpt m amount subject body p).isSome.toNat
      + (warnOpt m p).isSome.toNat = 1 := by
  obtain ⟨cn, id⟩ := p
  cases hm : m id with
  | none => simp [hordeOpt, allianceOpt, warnOpt, hm]
  | some info =>
    by_cases hA : info.alt = []
    · simp [hordeOpt, allianceOpt, warnOpt, hm, hA]
    · by_cases hF : info.faction = []
      · simp [hordeOpt, allianceOpt, warnOpt, hm, hA, hF]
      · by_cases h2 : lowerL info.faction = str "horde"
        · simp [hordeOpt, allianceOpt, warnOpt, hm, hA, hF, h2, hordeNeAlliance]
        · by_cases h3 : lowerL info.faction = str "alliance"
          · simp [hordeOpt, allianceOpt, warnOpt, hm, hA, hF, h2, h3, allianceNeHorde]
          · simp [hordeOpt, allianceOpt, warnOpt, hm, hA, hF, h2, h3]

theorem partition_count_v1 (m : Str → Option AltInfo) (amount : ℤ) (subject body : Str)
    (p : Str × Str) :
    (hordeOptV1 m amount subject body p).isSome.toNat
      + (allianceOptV1 m amount subject body p).isSome.toNat
      + (warnOptV1 m p).isSome.toNat = 1 := by
  obtain ⟨cn, id⟩ := p
  cases hm : m id with
  | none => simp [hordeOptV1, allianceOptV1, warnOptV1, hm]
  | some info =>
    by_cases hA : info.alt = []
    · simp [hordeOptV1, allianceOptV1, warnOptV1, hm, hA]
    · by_cases hF : info.faction = []
      · simp [hordeOptV1, allianceOptV1, warnOptV1, hm, hA, hF]
      · by_cases h2 : lowerL info.faction = str "horde"
        · simp [hordeOptV1, allianceOptV1, warnOptV1, hm, hA, hF, h2, hordeNeAlliance]
        · by_cases h3 : lowerL info.faction = str "alliance"
          · simp [hordeOptV1, allianceOptV1, warnOptV1, hm, hA, hF, h2, h3, allianceNeHorde]
          · simp [hordeOptV1, allianceOptV1, warnOptV1, hm, hA, hF, h2, h3]

/-- C1 (counterexample): on the spec's own scenario roster the database
revision's parser (`utils.parse_roster_data`) does NOT bench Bob: the row
`bench,,Bob,,t,s` has an empty id column and is silently dropped by the
`if not player_name or not discord_id: continue` guard (utils.py line 238),
so the benched list is empty rather than `["Bob"]`. -/
theorem c1_counterexample :
    parse_roster_data (str "role,spec,name,id,timestamp,status\ndps,fire,Alice,111111111111111111,t,s\nbench,,Bob,,t,s")
      = (none, [(str "Alice", str "111111111111111111")], [])
    ∧ (parse_roster_data (str "role,spec,name,id,timestamp,status\ndps,fire,Alice,111111111111111111,t,s\nbench,,Bob,,t,s")).2.2
      ≠ [str "Bob"] := by
  decide

/-- C1 (amended): roster classification of a player-list data row with at
least four columns, in both revisions.  Database revision
(`utils.parse_roster_data`): a row whose trimmed name OR trimmed id column
is empty is silently dropped; otherwise a trimmed role in the exclusion set
`{absence, tentative, bench}` (case-insensitive) benches the trimmed name
(id discarded), and any other row is active exactly when the id is entirely
numeric; non-numeric-id rows are silently dropped.  File revision
(`raid_manager_bot.parse_roster_data`): a row is active exactly when its
role is outside `{absence, bench}`, its name is non-empty and its id is
entirely numeric; it is benched exactly when its role is `bench` and its
name is non-empty (the id may be empty); all other rows — including
`absence` and `tentative` rows — are silently dropped. -/
theorem c1_roster_classification (c0 c1 c2 c3 : Str) (extra : List Str)
    (rest : List (List Str)) (rd : Option Str) (act : List (Str × Str)) (ben : List Str)
    (hhdr : ¬(lowerL (trimL c0) = str "role" ∧ lowerL (trimL c1) = str "spec")) :
    parseLoop ((c0 :: c1 :: c2 :: c3 :: extra) :: rest) true rd act ben
      = parseLoop rest true rd
          (if trimL c2 ≠ [] ∧ lowerL (trimL c0) ∉ EXCLUDED_ROLES ∧ pyIsDigit (trimL c3) = true
           then act ++ [(trimL c2, trimL c3)] else act)
          (if trimL c2 ≠ [] ∧ trimL c3 ≠ [] ∧ lowerL (trimL c0) ∈ EXCLUDED_ROLES
           then ben ++ [trimL c2] else ben)
    ∧ ∀ (role spec name id : Str) (extra2 : List Str) (act2 : List (Str × Str)) (ben2 : List Str),
        fileClassifyParts (role :: spec :: name :: id :: extra2) act2 ben2
          = ((if lowerL role ∉ [str "absence", str "bench"] ∧ name ≠ [] ∧ pyIsDigit id = true
              then act2 ++ [(name, id)] else act2),
             (if lowerL role = str "bench" ∧ name ≠ [] then ben2 ++ [name] else ben2)) := by
  constructor
  · have hplayer : isPlayerHeaderRow (c0 :: c1 :: c2 :: c3 :: extra) = false := by
      rw [isPlayerHeaderRow]
      rcases not_and_or.mp hhdr with h | h <;> simp [h]
    conv_lhs => rw [parseLoop.eq_def]
    by_cases hname : trimL c2 = []
    · simp [hplayer, hname]
    · by_cases hid : trimL c3 = []
      · simp [hplayer, hname, hid, pyIsDigit]
      · by_cases hrole : lowerL (trimL c0) ∈ EXCLUDED_ROLES
        · simp [hplayer, hname, hid, hrole]
        · by_cases hdig : pyIsDigit (trimL c3) = true
          · simp [hplayer, hname, hid, hrole, hdig]
          · simp [hplayer, hname, hid, hrole, hdig]
  · intro role spec name id extra2 act2 ben2
    simp only [fileClassifyParts]
    split_ifs with h1 h2 h3
    · exact (h1.1 (by rw [h2.1]; decide)).elim
    · rfl
    · rfl
    · rfl

/-- C1 (witness): the database-revision classification rule applied to the
row `bench,,Bob,,t,s` of the scenario. -/
theorem c1_roster_classification_witness :
    parseLoop ([str "bench", str "", str "Bob", str "", str "t", str "s"] :: []) true none [] []
      = parseLoop [] true none
          (if trimL (str "Bob") ≠ [] ∧ lowerL (trimL (str "bench")) ∉ EXCLUDED_ROLES
              ∧ pyIsDigit (trimL (str "")) = true
           then [] ++ [(trimL (str "Bob"), trimL (str ""))] else [])
          (if trimL (str "Bob") ≠ [] ∧ trimL (str "") ≠ []
              ∧ lowerL (trimL (str "bench")) ∈ EXCLUDED_ROLES
           then [] ++ [trimL (str "Bob")] else []) :=
  (c1_roster_classification (str "bench") (str "") (str "Bob") (str "")
    [str "t", str "s"] [] none [] [] (by decide)).1

/-- C10: event-date extraction of the database revision's parser.  When an
event-summary header row (trimmed, lowercased first two columns `name` and
`date`) is met before the player section, the parser consumes exactly the
next row, reads its second column, interprets it as `DD-MM-YYYY` and
re-emits it as `YYYY-MM-DD`; if that row is missing (`StopIteration`), too
short (`IndexError`) or its date field malformed (`ValueError`), the
previously held value (initially `none`) is kept; in every case the loop
continues with the remaining rows, so the player-list section is still
parsed — the failure is not fatal. -/
theorem c10_event_date_extraction (h d : List Str) (rest : List (List Str))
    (rd : Option Str) (act : List (Str × Str)) (ben : List Str)
    (hh : isEventHeaderRow h = true) :
    parseLoop (h :: d :: rest) false rd act ben
      = parseLoop rest false (extractEventDate d rd) act ben
    ∧ parseLoop [h] false rd act ben = (rd, act, ben)
    ∧ (∀ ds dd mm yy, d[1]? = some ds → parseDMY (trimL ds) = some (dd, mm, yy) →
        extractEventDate d rd = some (formatYMD yy mm dd))
    ∧ (d[1]? = none → extractEventDate d rd = rd)
    ∧ (∀ ds, d[1]? = some ds → parseDMY (trimL ds) = none → extractEventDate d rd = rd) := by
  have hsh : ∃ a b t, h = a :: b :: t := by
    cases h with
    | nil => simp [isEventHeaderRow] at hh
    | cons a h2 =>
      cases h2 with
      | nil => simp [isEventHeaderRow] at hh
      | cons b t => exact ⟨a, b, t, rfl⟩
  obtain ⟨a, b, t, rfl⟩ := hsh
  refine ⟨?_, ?_, ?_, ?_, ?_⟩
  · conv_lhs => rw [parseLoop.eq_def]
    simp [hh]
  · conv_lhs => rw [parseLoop.eq_def]
    simp [hh]
  · intro ds dd mm yy h1 h2
    simp [extractEventDate, h1, h2]
  · intro h1
    simp [extractEventDate, h1]
  · intro ds h1 h2
    simp [extractEventDate, h1, h2]

/-- C10 (witness): a concrete extended-shape fragment — the header
`Name,Date` followed by the data row `raid,25-12-2024`. -/
theorem c10_event_date_extraction_witness :
    parseLoop [[str "Name", str "Date"], [str "raid", str "25-12-2024"]] false none [] []
      = parseLoop [] false (extractEventDate [str "raid", str "25-12-2024"] none) [] [] :=
  (c10_event_date_extraction [str "Name", str "Date"] [str "raid", str "25-12-2024"]
    [] none [] [] (by decide)).1

theorem computePayout_payment_def (g : ℤ) (rl gp : ℚ) (n : ℕ) :
    (computePayout g rl gp n).gold_per_booster_for_payment
      = pyInt ((computePayout g rl gp n).gold_per_booster_precise) := rfl

theorem computePayout_logged_def (g : ℤ) (rl gp : ℚ) (n : ℕ) :
    (computePayout g rl gp n).gold_per_booster_logged
      = pyRound2 ((computePayout g rl gp n).gold_per_booster_precise) := rfl

/-- C2: the payout scenario of the spec, computed with the configured cut
percentages (floats modelled as exact rationals).  The raid-leader share
comes off the total first (15.0), the guild share off the remainder
(985·0.035 = 34.475), the rest is divided among the three participants
(≈316.8417) and the integer mail amount truncates to 316. -/
theorem c2_payout_step_order :
    RAID_LEADER_CUT_PERCENTAGE = 15 / 1000
    ∧ GUILD_CUT_PERCENTAGE = 35 / 1000
    ∧ (computePayout 1000 (15/1000) (35/1000) 3).raid_leader_share_amount = 15
    ∧ (computePayout 1000 (15/1000) (35/1000) 3).guild_share_amount = 985 * (35/1000)
    ∧ (computePayout 1000 (15/1000) (35/1000) 3).guild_share_amount = 34475 / 1000
    ∧ (computePayout 1000 (15/1000) (35/1000) 3).gold_per_booster_precise
        = (985 - 34475/1000) / 3
    ∧ |(computePayout 1000 (15/1000) (35/1000) 3).gold_per_booster_precise
        - 3168417/10000| < 1 / 10000
    ∧ (computePayout 1000 (15/1000) (35/1000) 3).gold_per_booster_for_payment = 316 := by
  have hprecise : (computePayout 1000 (15/1000) (35/1000) 3).gold_per_booster_precise
      = 38021 / 120 := by
    norm_num [computePayout]
  refine ⟨rfl, rfl, by norm_num [computePayout], by norm_num [computePayout],
    by norm_num [computePayout], by rw [hprecise]; norm_num, by rw [hprecise, abs_lt]; constructor <;> norm_num, ?_⟩
  rw [computePayout_payment_def, hprecise]
  rw [pyInt, if_pos (by norm_num)]
  rw [Int.floor_eq_iff]
  norm_num

/-- C5: split conservation.  For positive totals, cut percentages in `[0, 1)`
and a positive participant count, the raid-leader share plus the guild share
plus the precise per-participant share times the participant count equals
the total within the stated `1e-6` tolerance (exactly, in the rational
model). -/
theorem c5_split_conservation (total_gold : ℤ) (rl_pct guild_pct : ℚ) (n : ℕ)
    (h_total : 0 < total_gold) (h_rl0 : 0 ≤ rl_pct) (h_rl1 : rl_pct < 1)
    (h_g0 : 0 ≤ guild_pct) (h_g1 : guild_pct < 1) (h_n : 0 < n) :
    |(computePayout total_gold rl_pct guild_pct n).raid_leader_share_amount
        + (computePayout total_gold rl_pct guild_pct n).guild_share_amount
        + (computePayout total_gold rl_pct guild_pct n).gold_per_booster_precise * (n : ℚ)
        - (total_gold : ℚ)| ≤ 1 / 1000000 := by
  have hn : (n : ℚ) ≠ 0 := Nat.cast_ne_zero.mpr h_n.ne'
  simp only [computePayout, if_neg h_n.ne']
  rw [div_mul_cancel₀ _ hn]
  have key : ∀ T r g : ℚ, r + (T - r) * g + (T - r - (T - r) * g) - T = 0 := by
    intro T r g; ring
  rw [key]
  norm_num

/-- C5 (witness): conservation at the spec's scenario inputs. -/
theorem c5_split_conservation_witness :
    |(computePayout 1000 (15/1000) (35/1000) 3).raid_leader_share_amount
        + (computePayout 1000 (15/1000) (35/1000) 3).guild_share_amount
        + (computePayout 1000 (15/1000) (35/1000) 3).gold_per_booster_precise * ((3 : ℕ) : ℚ)
        - ((1000 : ℤ) : ℚ)| ≤ 1 / 1000000 :=
  c5_split_conservation 1000 (15/1000) (35/1000) 3 (by norm_num) (by norm_num)
    (by norm_num) (by norm_num) (by norm_num) (by norm_num)

/-- C6: integer truncation.  For valid inputs the integer mail amount is
`int(...)` of the precise share, which equals its floor (the share is
non-negative) and never exceeds it; the logged display value is the separate
2-decimal rounding `round(..., 2)` of the same precise share. -/
theorem c6_integer_truncation (total_gold : ℤ) (rl_pct guild_pct : ℚ) (n : ℕ)
    (h_total : 0 < total_gold) (h_rl0 : 0 ≤ rl_pct) (h_rl1 : rl_pct < 1)
    (h_g0 : 0 ≤ guild_pct) (h_g1 : guild_pct < 1) (h_n : 0 < n) :
    (computePayout total_gold rl_pct guild_pct n).gold_per_booster_for_payment
      = ⌊(computePayout total_gold rl_pct guild_pct n).gold_per_booster_precise⌋
    ∧ ((computePayout total_gold rl_pct guild_pct n).gold_per_booster_for_payment : ℚ)
      ≤ (computePayout total_gold rl_pct guild_pct n).gold_per_booster_precise
    ∧ (computePayout total_gold rl_pct guild_pct n).gold_per_booster_for_payment
      = pyInt ((computePayout total_gold rl_pct guild_pct n).gold_per_booster_precise)
    ∧ (computePayout total_gold rl_pct guild_pct n).gold_per_booster_logged
      = pyRound2 ((computePayout total_gold rl_pct guild_pct n).gold_per_booster_precise) := by
  have hT : (0 : ℚ) < (total_gold : ℚ) := by exact_mod_cast h_total
  have hpos : 0 ≤ (computePayout total_gold rl_pct guild_pct n).gold_per_booster_precise := by
    simp only [computePayout, if_neg h_n.ne']
    have hr : (0 : ℚ) < (total_gold : ℚ)
        - (if rl_pct > 0 then (total_gold : ℚ) * rl_pct else 0) := by
      split_ifs with h
      · nlinarith [mul_pos hT (show (0:ℚ) < 1 - rl_pct by linarith)]
      · linarith
    have hrem : (0 : ℚ) < ((total_gold : ℚ)
          - (if rl_pct > 0 then (total_gold : ℚ) * rl_pct else 0))
        - ((total_gold : ℚ) - (if rl_pct > 0 then (total_gold : ℚ) * rl_pct else 0))
          * guild_pct := by
      nlinarith [mul_pos hr (show (0:ℚ) < 1 - guild_pct by linarith)]
    have hn' : (0 : ℚ) < (n : ℚ) := by exact_mod_cast h_n
    exact le_of_lt (div_pos hrem hn')
  refine ⟨?_, ?_, rfl, rfl⟩
  · rw [computePayout_payment_def]
    simp only [pyInt, if_pos hpos]
  · rw [computePayout_payment_def]
    simp only [pyInt, if_pos hpos]
    exact Int.floor_le _

/-- C6 (witness): truncation at the spec's scenario inputs. -/
theorem c6_integer_truncation_witness :
    (computePayout 1000 (15/1000) (35/1000) 3).gold_per_booster_for_payment
      = ⌊(computePayout 1000 (15/1000) (35/1000) 3).gold_per_booster_precise⌋ :=
  (c6_integer_truncation 1000 (15/1000) (35/1000) 3 (by norm_num) (by norm_num)
    (by norm_num) (by norm_num) (by norm_num) (by norm_num)).1

theorem hordeOpt_eq_some (m : Str → Option AltInfo) (amount : ℤ) (subject body : Str)
    (p : Str × Str) (s : Str) (h : hordeOpt m amount subject body p = some s) :
    ∃ info, m p.2 = some info ∧ info.alt ≠ [] ∧ info.faction ≠ []
      ∧ s = paymentStringDB info.alt amount subject body := by
  cases hm : m p.2 with
  | none => simp [hordeOpt, hm] at h
  | some info =>
    simp only [hordeOpt, hm] at h
    split_ifs at h with hc
    · rw [Option.some_inj] at h
      exact ⟨info, rfl, hc.1, hc.2.1, h.symm⟩

theorem allianceOpt_eq_some (m : Str → Option AltInfo) (amount : ℤ) (subject body : Str)
    (p : Str × Str) (s : Str) (h : allianceOpt m amount subject body p = some s) :
    ∃ info, m p.2 = some info ∧ info.alt ≠ [] ∧ info.faction ≠ []
      ∧ s = paymentStringDB info.alt amount subject body := by
  cases hm : m p.2 with
  | none => simp [allianceOpt, hm] at h
  | some info =>
    simp only [allianceOpt, hm] at h
    split_ifs at h with hc
    · rw [Option.some_inj] at h
      exact ⟨info, rfl, hc.1, hc.2.1, h.symm⟩

theorem hordeOptV1_eq_some (m : Str → Option AltInfo) (amount : ℤ) (subject body : Str)
    (p : Str × Str) (s : Str) (h : hordeOptV1 m amount subject body p = some s) :
    ∃ info, m p.2 = some info ∧ info.alt ≠ [] ∧ info.faction ≠ []
      ∧ s = paymentStringV1 info.alt amount subject body := by
  cases hm : m p.2 with
  | none => simp [hordeOptV1, hm] at h
  | some info =>
    simp only [hordeOptV1, hm] at h
    split_ifs at h with hc
    · rw [Option.some_inj] at h
      exact ⟨info, rfl, hc.1, hc.2.1, h.symm⟩

theorem allianceOptV1_eq_some (m : Str → Option AltInfo) (amount : ℤ) (subject body : Str)
    (p : Str × Str) (s : Str) (h : allianceOptV1 m amount subject body p = some s) :
    ∃ info, m p.2 = some info ∧ info.alt ≠ [] ∧ info.faction ≠ []
      ∧ s = paymentStringV1 info.alt amount subject body := by
  cases hm : m p.2 with
  | none => simp [allianceOptV1, hm] at h
  | some info =>
    simp only [allianceOptV1, hm] at h
    split_ifs at h with hc
    · rw [Option.some_inj] at h
      exact ⟨info, rfl, hc.1, hc.2.1, h.symm⟩

/-- C7: instruction/faction partition, in both revisions.  The faction
buckets and the warning list are exactly order-preserving `filterMap`s of
the active-participant list (so each bucket keeps the input order), and for
every participant exactly one of the three per-participant contributions —
horde instruction, alliance instruction, warning — is produced: an
instruction exactly when the participant is registered with a non-empty
character name and non-empty faction whose lowercase form is `horde` or
`alliance`, a warning in every other case. -/
theorem c7_instruction_faction_partition (m : Str → Option AltInfo) (amount : ℤ)
    (subject body : Str) (active : List (Str × Str)) :
    (generatePayments m amount subject body active).1
        = active.filterMap (hordeOpt m amount subject body)
    ∧ (generatePayments m amount subject body active).2
        = active.filterMap (allianceOpt m amount subject body)
    ∧ altWarnings m active = active.filterMap (warnOpt m)
    ∧ (∀ p : Str × Str,
        (hordeOpt m amount subject body p).isSome.toNat
          + (allianceOpt m amount subject body p).isSome.toNat
          + (warnOpt m p).isSome.toNat = 1)
    ∧ (generatePaymentsV1 m amount subject body active).1
        = active.filterMap (hordeOptV1 m amount subject body)
    ∧ (generatePaymentsV1 m amount subject body active).2.1
        = active.filterMap (allianceOptV1 m amount subject body)
    ∧ (generatePaymentsV1 m amount subject body active).2.2
        = active.filterMap (warnOptV1 m)
    ∧ (∀ p : Str × Str,
        (hordeOptV1 m amount subject body p).isSome.toNat
          + (allianceOptV1 m amount subject body p).isSome.toNat
          + (warnOptV1 m p).isSome.toNat = 1) := by
  refine ⟨?_, ?_, altWarnings_eq_filterMap m active,
    partition_count m amount subject body, ?_, ?_, ?_,
    partition_count_v1 m amount subject body⟩
  · rw [generatePayments_eq_filterMap]
  · rw [generatePayments_eq_filterMap]
  · rw [generatePaymentsV1_eq_filterMap]
  · rw [generatePaymentsV1_eq_filterMap]
  · rw [generatePaymentsV1_eq_filterMap]

/-- A one-entry registry used for concrete evaluations: Discord id `1` is
registered with alt `Alice`, faction `Horde`. -/
def registryAliceHorde : Str → Option AltInfo :=
  fun id => if id = str "1" then some ⟨str "Alice", str "Horde"⟩ else none

/-- C3 (counterexample): in the file revision the generated instruction for
a registered horde booster is `Alice-Area52:S:10:B` — subject before
amount — which differs from the claimed field order
`<character>:<amount>:<subject>:<body>` (`Alice-Area52:10:S:B`). -/
theorem c3_counterexample :
    (generatePaymentsV1 registryAliceHorde 10 (str "S") (str "B")
        [(str "Alice", str "1")]).1
      = [str "Alice-Area52:S:10:B"]
    ∧ str "Alice-Area52:S:10:B"
      ≠ addRealmSuffix (str "Alice") ++ str ":" ++ intToStr 10 ++ str ":" ++ str "S"
          ++ str ":" ++ str "B" := by
  decide

/-- C3 (amended): every generated payment instruction is colon-delimited and
built from the registered character name with the realm suffix appended when
absent; the database revision (bot.py) orders the fields
`<character>:<amount>:<subject>:<body>`, while the earlier file revision
(raid_manager_bot.py) orders them `<character>:<subject>:<amount>:<body>`. -/
theorem c3_payment_instruction_format (m : Str → Option AltInfo) (amount : ℤ)
    (subject body : Str) (active : List (Str × Str)) (s : Str) :
    ((s ∈ (generatePayments m amount subject body active).1
        ∨ s ∈ (generatePayments m amount subject body active).2) →
      ∃ p ∈ active, ∃ info, m p.2 = some info ∧ info.alt ≠ [] ∧ info.faction ≠ []
        ∧ s = addRealmSuffix info.alt ++ str ":" ++ intToStr amount ++ str ":"
            ++ subject ++ str ":" ++ body)
    ∧ ((s ∈ (generatePaymentsV1 m amount subject body active).1
        ∨ s ∈ (generatePaymentsV1 m amount subject body active).2.1) →
      ∃ p ∈ active, ∃ info, m p.2 = some info ∧ info.alt ≠ [] ∧ info.faction ≠ []
        ∧ s = addRealmSuffix info.alt ++ str ":" ++ subject ++ str ":"
            ++ intToStr amount ++ str ":" ++ body) := by
  have h1 : (generatePayments m amount subject body active).1
      = active.filterMap (hordeOpt m amount subject body) := by
    rw [generatePayments_eq_filterMap]
  have h2 : (generatePayments m amount subject body active).2
      = active.filterMap (allianceOpt m amount subject body) := by
    rw [generatePayments_eq_filterMap]
  have h3 : (generatePaymentsV1 m amount subject body active).1
      = active.filterMap (hordeOptV1 m amount subject body) := by
    rw [generatePaymentsV1_eq_filterMap]
  have h4 : (generatePaymentsV1 m amount subject body active).2.1
      = active.filterMap (allianceOptV1 m amount subject body) := by
    rw [generatePaymentsV1_eq_filterMap]
  constructor
  · intro hs
    rcases hs with hs | hs
    · rw [h1, List.mem_filterMap] at hs
      obtain ⟨p, hp, hsome⟩ := hs
      obtain ⟨info, hm, ha, hf, hs'⟩ := hordeOpt_eq_some m amount subject body p s hsome
      exact ⟨p, hp, info, hm, ha, hf, hs'.trans rfl⟩
    · rw [h2, List.mem_filterMap] at hs
      obtain ⟨p, hp, hsome⟩ := hs
      obtain ⟨info, hm, ha, hf, hs'⟩ := allianceOpt_eq_some m amount subject body p s hsome
      exact ⟨p, hp, info, hm, ha, hf, hs'.trans rfl⟩
  · intro hs
    rcases hs with hs | hs
    · rw [h3, List.mem_filterMap] at hs
      obtain ⟨p, hp, hsome⟩ := hs
      obtain ⟨info, hm, ha, hf, hs'⟩ := hordeOptV1_eq_some m amount subject body p s hsome
      exact ⟨p, hp, info, hm, ha, hf, hs'.trans rfl⟩
    · rw [h4, List.mem_filterMap] at hs
      obtain ⟨p, hp, hsome⟩ := hs
      obtain ⟨info, hm, ha, hf, hs'⟩ := allianceOptV1_eq_some m amount subject body p s hsome
      exact ⟨p, hp, info, hm, ha, hf, hs'.trans rfl⟩

/-- C3 (witness): the database-revision instruction for the registered
booster Alice. -/
theorem c3_payment_instruction_format_witness :
    ∃ p ∈ [(str "Alice", str "1")], ∃ info, registryAliceHorde p.2 = some info
      ∧ info.alt ≠ [] ∧ info.faction ≠ []
      ∧ str "Alice-Area52:10:S:B"
          = addRealmSuffix info.alt ++ str ":" ++ intToStr 10 ++ str ":" ++ str "S"
            ++ str ":" ++ str "B" :=
  (c3_payment_instruction_format registryAliceHorde 10 (str "S") (str "B")
    [(str "Alice", str "1")] (str "Alice-Area52:10:S:B")).1 (Or.inl (by decide))

/-- C4: in the database revision, every `cut_command` invocation that passes
the date, amount and file-extension validations fails at the parse step:
`utils.parse_roster_data` returns a 3-tuple while bot.py line 348 unpacks it
into two targets, raising `ValueError: too many values to unpack
(expected 2)`.  No run-log entry is written and the completed branch
(classification, logging, instruction generation) is unreachable. -/
theorem c4_unpack_crash (run_date wcl_link : Str) (total_gold : ℤ)
    (filename roster : Str) (session : RunSession) (logs : List RunLogEntry)
    (h_date : is_valid_date run_date = true) (h_gold : 0 < total_gold)
    (h_ext : hasRosterExtension filename = true) :
    (cut_command run_date wcl_link total_gold filename roster session logs).1
      = .pyError (str "too many values to unpack (expected 2)")
    ∧ (cut_command run_date wcl_link total_gold filename roster session logs).2.2 = logs
    ∧ ∀ (act : List (Str × Str)) (ben : List Str),
        (cut_command run_date wcl_link total_gold filename roster session logs).1
          ≠ .completed act ben := by
  have hu : unpack2 (parseRosterDataTuple roster)
      = Except.error (str "too many values to unpack (expected 2)") := rfl
  simp only [cut_command, if_neg (not_not_intro h_date), if_neg (not_le.mpr h_gold),
    if_neg (not_not_intro h_ext), hu]
  simp

/-- C4 (witness): concrete invocation passing all validations. -/
theorem c4_unpack_crash_witness :
    (cut_command (str "2024-01-01") (str "link") 1000 (str "r.csv") (str "anything")
        resetSession []).1
      = .pyError (str "too many values to unpack (expected 2)") :=
  (c4_unpack_crash (str "2024-01-01") (str "link") 1000 (str "r.csv") (str "anything")
    resetSession [] (by decide) (by decide) (by decide)).1

/-- C8 (counterexample): on empty content the file revision's formatter
delivers the placeholder `No payment information or warnings to display.`,
not the claimed fixed placeholder `No information to display.`. -/
theorem c8_counterexample :
    send_long_message_or_file_v1 [] [] (str "f.txt")
      = .inlineMsg (str "No payment information or warnings to display.")
    ∧ send_long_message_or_file_v1 [] [] (str "f.txt")
      ≠ .inlineMsg (str "No information to display.") := by
  decide

/-- C8 (amended): delivery decision of both revisions of
`send_long_message_or_file`.  The combined message (primary padded to end
with a blank line, then secondary, when both are non-empty) is sent inline
when its length is at most 1950 and it is not whitespace-only; longer
content is attached as a file together with an introductory message; content
that is whitespace-only (and within the length limit) is replaced by a fixed
placeholder, whose text is `No information to display.` in the database
revision and `No payment information or warnings to display.` in the file
revision. -/
theorem c8_delivery_threshold (primary secondary filename : Str) :
    ((combineMessages primary secondary).length ≤ 1950 →
      trimL (combineMessages primary secondary) ≠ [] →
      send_long_message_or_file primary secondary filename
          = .inlineMsg (combineMessages primary secondary)
        ∧ send_long_message_or_file_v1 primary secondary filename
          = .inlineMsg (combineMessages primary secondary))
    ∧ ((combineMessages primary secondary).length > 1950 →
      send_long_message_or_file primary secondary filename
          = .fileAttach (introText primary secondary filename) filename
              (combineMessages primary secondary)
        ∧ send_long_message_or_file_v1 primary secondary filename
          = .fileAttach (introText primary secondary filename) filename
              (combineMessages primary secondary))
    ∧ ((combineMessages primary secondary).length ≤ 1950 →
      trimL (combineMessages primary secondary) = [] →
      send_long_message_or_file primary secondary filename
          = .inlineMsg (str "No information to display.")
        ∧ send_long_message_or_file_v1 primary secondary filename
          = .inlineMsg (str "No payment information or warnings to display."))
    ∧ (primary ≠ [] → secondary ≠ [] →
      combineMessages primary secondary
        = (if endsWithL primary (str "\n\n") = true then primary
           else if endsWithL primary (str "\n") = true then primary ++ str "\n"
           else primary ++ str "\n" ++ str "\n") ++ secondary) := by
  refine ⟨?_, ?_, ?_, ?_⟩
  · intro h1 h2
    constructor <;>
      (simp only [send_long_message_or_file, send_long_message_or_file_v1]
       rw [if_neg (not_lt.mpr h1), if_neg h2])
  · intro h1
    constructor <;>
      (simp only [send_long_message_or_file, send_long_message_or_file_v1]
       rw [if_pos h1])
  · intro h1 h2
    constructor <;>
      (simp only [send_long_message_or_file, send_long_message_or_file_v1]
       rw [if_neg (not_lt.mpr h1), if_pos h2])
  · intro hp hs
    simp only [combineMessages, if_pos hs]
    by_cases h1 : endsWithL primary (str "\n\n") = true
    · rw [if_neg (by simp [h1]), if_pos h1]
    · rw [if_pos ⟨hp, h1⟩, if_neg h1]
      by_cases h2 : endsWithL primary (str "\n") = true
      · rw [if_neg (by simp [h2]), if_pos h2]
      · rw [if_pos h2, if_neg h2]

set_option maxRecDepth 100000 in
/-- C8 (witness): short non-empty content is sent inline, empty content
yields the database-revision placeholder, oversized secondary content is
attached as a file, and the blank-line separator is inserted. -/
theorem c8_delivery_threshold_witness :
    (send_long_message_or_file (str "hello") (str "world") (str "out.txt")
        = .inlineMsg (combineMessages (str "hello") (str "world")))
    ∧ (send_long_message_or_file [] [] (str "out.txt")
        = .inlineMsg (str "No information to display."))
    ∧ (send_long_message_or_file [] (List.replicate 1951 'a') (str "out.txt")
        = .fileAttach (introText [] (List.replicate 1951 'a') (str "out.txt")) (str "out.txt")
            (combineMessages [] (List.replicate 1951 'a')))
    ∧ (combineMessages (str "hello") (str "world")
        = (if endsWithL (str "hello") (str "\n\n") = true then str "hello"
           else if endsWithL (str "hello") (str "\n") = true then str "hello" ++ str "\n"
           else str "hello" ++ str "\n" ++ str "\n") ++ str "world") :=
  ⟨((c8_delivery_threshold (str "hello") (str "world") (str "out.txt")).1
      (by decide) (by decide)).1,
   ((c8_delivery_threshold [] [] (str "out.txt")).2.2.1 (by decide) (by decide)).1,
   ((c8_delivery_threshold [] (List.replicate 1951 'a') (str "out.txt")).2.1
      (by
        have hne : (List.replicate 1951 'a' : Str) ≠ [] := by simp
        have hcomb : combineMessages [] (List.replicate 1951 'a')
            = List.replicate 1951 'a' := by
          rw [combineMessages, if_pos hne]
          simp
        rw [hcomb, List.length_replicate]
        norm_num)).1,
   (c8_delivery_threshold (str "hello") (str "world") (str "out.txt")).2.2.2
      (by decide) (by decide)⟩

/-- C9 (counterexample): a run-payout invocation with a valid date, positive
gold and a `.csv` roster whose parse yields zero active participants.  In
the database revision the command does NOT reply with the specific
corrective message — the parse-step unpack failure (claim C4) pre-empts the
zero-active check and surfaces as a generic error; moreover in both
revisions the shared current-run session has already been reset and
overwritten by this point, so state other than the run log does change. -/
theorem c9_counterexample :
    is_valid_date (str "2024-01-01") = true
    ∧ (0 : ℤ) < 1000
    ∧ hasRosterExtension (str "roster.csv") = true
    ∧ (parse_roster_data (str "x")).2.1 = []
    ∧ (parse_roster_data_v1 (str "x")).1 = []
    ∧ (cut_command (str "2024-01-01") (str "link") 1000 (str "roster.csv") (str "x")
        resetSession []).1
      ≠ .reply (str "No active boosters found in the roster. Please check the file format and content.")
    ∧ (cut_command (str "2024-01-01") (str "link") 1000 (str "roster.csv") (str "x")
        resetSession []).1
      = .pyError (str "too many values to unpack (expected 2)")
    ∧ (cut_command_v1 (str "2024-01-01") (str "link") 1000 (str "roster.csv") (str "x")
        { resetSession with roster_raw := str "old", data_loaded := true } []).2.2 = []
    ∧ (cut_command_v1 (str "2024-01-01") (str "link") 1000 (str "roster.csv") (str "x")
        { resetSession with roster_raw := str "old", data_loaded := true } []).2.1.roster_raw
      = str "x"
    ∧ (cut_command_v1 (str "2024-01-01") (str "link") 1000 (str "roster.csv") (str "x")
        { resetSession with roster_raw := str "old", data_loaded := true } []).2.1.data_loaded
      = false := by
  decide

/-- C9 (amended): validation-failure behaviour of `cut_command` in both
revisions.  A malformed date, a non-positive total or a wrong file extension
makes both revisions reply with the corresponding specific corrective
message and abort before touching the session, the run log or anything
else.  When the roster parses to zero active participants, no run-log entry
is written in either revision, but the shared current-run session has
already been reset and loaded with the new inputs; the file revision replies
with the specific no-active-boosters message, while the database revision
aborts slightly earlier, at the parse-step unpack failure, with an uncaught
`ValueError` surfaced as a generic error message. -/
theorem c9_validation_atomicity (run_date wcl_link : Str) (total_gold : ℤ)
    (filename roster : Str) (session : RunSession) (logs : List RunLogEntry) :
    (¬(is_valid_date run_date = true) →
      cut_command run_date wcl_link total_gold filename roster session logs
          = (.reply (str "Invalid date format. Please use `YYYY-MM-DD`."), session, logs)
        ∧ cut_command_v1 run_date wcl_link total_gold filename roster session logs
          = (.reply (str "Invalid date format. Please use `YYYY-MM-DD`."), session, logs))
    ∧ (is_valid_date run_date = true → total_gold ≤ 0 →
      cut_command run_date wcl_link total_gold filename roster session logs
          = (.reply (str "Total gold must be a positive number."), session, logs)
        ∧ cut_command_v1 run_date wcl_link total_gold filename roster session logs
          = (.reply (str "Total gold must be a positive number."), session, logs))
    ∧ (is_valid_date run_date = true → 0 < total_gold →
        ¬(hasRosterExtension filename = true) →
      cut_command run_date wcl_link total_gold filename roster session logs
          = (.reply (str "Roster file must be a `.txt` or `.csv` file."), session, logs)
        ∧ cut_command_v1 run_date wcl_link total_gold filename roster session logs
          = (.reply (str "Roster file must be a `.txt` or `.csv` file."), session, logs))
    ∧ (is_valid_date run_date = true → 0 < total_gold →
        hasRosterExtension filename = true → (parse_roster_data_v1 roster).1 = [] →
      cut_command_v1 run_date wcl_link total_gold filename roster session logs
          = (.reply (str "No active boosters found in the roster. Please check the file format and content."),
             sessionAfterLoad run_date wcl_link total_gold roster, logs))
    ∧ (is_valid_date run_date = true → 0 < total_gold →
        hasRosterExtension filename = true →
      (cut_command run_date wcl_link total_gold filename roster session logs).1
          = .pyError (str "too many values to unpack (expected 2)")
        ∧ (cut_command run_date wcl_link total_gold filename roster session logs).2.2 = logs
        ∧ (cut_command run_date wcl_link total_gold filename roster session logs).2.1
          = sessionAfterLoad run_date wcl_link total_gold roster) := by
  refine ⟨?_, ?_, ?_, ?_, ?_⟩
  · intro h1
    constructor <;> (simp only [cut_command, cut_command_v1]; rw [if_pos h1])
  · intro h1 h2
    constructor <;>
      (simp only [cut_command, cut_command_v1]
       rw [if_neg (not_not_intro h1), if_pos h2])
  · intro h1 h2 h3
    constructor <;>
      (simp only [cut_command, cut_command_v1]
       rw [if_neg (not_not_intro h1), if_neg (not_le.mpr h2), if_pos h3])
  · intro h1 h2 h3 h4
    simp only [cut_command_v1, if_neg (not_not_intro h1), if_neg (not_le.mpr h2),
      if_neg (not_not_intro h3)]
    rw [if_pos h4]
  · intro h1 h2 h3
    have hu : unpack2 (parseRosterDataTuple roster)
        = Except.error (str "too many values to unpack (expected 2)") := rfl
    simp only [cut_command, if_neg (not_not_intro h1), if_neg (not_le.mpr h2),
      if_neg (not_not_intro h3), hu]
    simp

/-- C9 (witness): each validation failure exercised on concrete inputs. -/
theorem c9_validation_atomicity_witness :
    (cut_command_v1 (str "nope") (str "l") 1000 (str "r.csv") (str "x") resetSession []
        = (.reply (str "Invalid date format. Please use `YYYY-MM-DD`."), resetSession, []))
    ∧ (cut_command_v1 (str "2024-01-01") (str "l") 0 (str "r.csv") (str "x") resetSession []
        = (.reply (str "Total gold must be a positive number."), resetSession, []))
    ∧ (cut_command_v1 (str "2024-01-01") (str "l") 1000 (str "r.pdf") (str "x") resetSession []
        = (.reply (str "Roster file must be a `.txt` or `.csv` file."), resetSession, []))
    ∧ (cut_command_v1 (str "2024-01-01") (str "l") 1000 (str "r.csv") (str "x") resetSession []
        = (.reply (str "No active boosters found in the roster. Please check the file format and content."),
           sessionAfterLoad (str "2024-01-01") (str "l") 1000 (str "x"), []))
    ∧ (cut_command (str "2024-01-01") (str "l") 1000 (str "r.csv") (str "x") resetSession []).1
        = .pyError (str "too many values to unpack (expected 2)") :=
  ⟨((c9_validation_atomicity (str "nope") (str "l") 1000 (str "r.csv") (str "x")
      resetSession []).1 (by decide)).2,
   ((c9_validation_atomicity (str "2024-01-01") (str "l") 0 (str "r.csv") (str "x")
      resetSession []).2.1 (by decide) (by decide)).2,
   ((c9_validation_atomicity (str "2024-01-01") (str "l") 1000 (str "r.pdf") (str "x")
      resetSession []).2.2.1 (by decide) (by decide) (by decide)).2,
   (c9_validation_atomicity (str "2024-01-01") (str "l") 1000 (str "r.csv") (str "x")
      resetSession []).2.2.2.1 (by decide) (by decide) (by decide) (by decide),
   ((c9_validation_atomicity (str "2024-01-01") (str "l") 1000 (str "r.csv") (str "x")
      resetSession []).2.2.2.2 (by decide) (by decide) (by decide)).1⟩

end DeadBot
